import Mathlib

/-!
Verification development for the resource cache database layer
(KisResourceCacheDb.cpp). The relational store is embedded shallowly:
each table is a list of row structures inside DbState, and each
operation of the source file becomes a Lean function from DbState to
DbState paired with its Bool return value. SQL statements that are
well formed are given their relational meaning; SQL statements whose
literal text in the source is malformed (adjacent string literals
concatenated without a separating space, a stray parenthesis) are
modelled as failing at prepare time, exactly as the database layer
would reject them, with the control flow the source then takes.
Timestamps are integers (seconds or milliseconds since the epoch, as
each call site converts them). Queries whose text lives in resource
files outside the excerpt are modelled from the spec and say so in
their doc comments.
-/

/-- A row of the resources table: one row per logical resource identity. -/
structure ResourceRow where
  id : Int
  resource_type_id : Option Int
  name : String
  filename : String
  tooltip : String
  thumbnail : String
  status : Int
deriving DecidableEq

/-- A row of the versioned_resources table: one snapshot of a resource.
The version column is Option Int because the INSERT in addResourceVersion
computes it as MAX(version) + 1, which is NULL when the resource has no
rows yet (SQL MAX over an empty set is NULL, and NULL + 1 is NULL). -/
structure VersionedResourceRow where
  resource_id : Int
  storage_id : Option Int
  version : Option Int
  location : String
  timestamp : Int
  deleted : Int
  checksum : String
deriving DecidableEq

/-- A row of the storages table. The timestamp column holds whatever
integer the writer bound; addStorage binds milliseconds since the epoch. -/
structure StorageRow where
  id : Int
  origin_type_id : Int
  location : String
  timestamp : Int
  pre_installed : Int
  active : Int
deriving DecidableEq

/-- A row of the tags table. -/
structure TagRow where
  id : Int
  url : String
  name : String
  comment : String
  resource_type_id : Option Int
  active : Int
deriving DecidableEq

/-- A row of the resource_tags association table. -/
structure ResourceTagRow where
  resource_id : Int
  tag_id : Int
deriving DecidableEq

/-- A row of the version_information table. -/
structure VersionInfoRow where
  schema_version : String
  krita_version : String
  creation_date : Int
deriving DecidableEq

/-- The process-wide state: the single database connection plus the
process-wide s_valid flag. connectionAdded models whether
QSqlDatabase.connectionNames is nonempty (a connection name is added by
addDatabase even when the subsequent open fails); openFails models
whether the environment would make the open call fail. -/
structure DbState where
  connectionAdded : Bool
  openFails : Bool
  valid : Bool
  tables : List String
  version_information : List VersionInfoRow
  origin_types : List (Int × String)
  resource_types : List (Int × String)
  storages : List StorageRow
  resources : List ResourceRow
  versioned_resources : List VersionedResourceRow
  tags : List TagRow
  resource_tags : List ResourceTagRow
  nextResourceId : Int
  nextStorageId : Int
  nextTagId : Int
deriving DecidableEq

/-- The enumerated storage kinds of KisResourceStorage.StorageType. -/
inductive StorageType where
  | Unknown
  | Folder
  | Bundle
  | AdobeBrushLibrary
  | AdobeStyleLibrary
deriving DecidableEq, BEq

/-- Modelled from the spec: the numeric value of the storage type
enumeration, matching the fixed origin_types lookup list
(UNKNOWN, FOLDER, BUNDLE, ADOBE_BRUSH_LIBRARY, ADOBE_STYLE_LIBRARY). -/
def StorageType.toInt : StorageType → Int
  | .Unknown => 1
  | .Folder => 2
  | .Bundle => 3
  | .AdobeBrushLibrary => 4
  | .AdobeStyleLibrary => 5

/-- The storage abstraction as the cache layer reads it: a location, a
type, and one timestamp, held in milliseconds since the epoch (the
precision QDateTime carries); call sites convert as they bind it. -/
structure KisResourceStorage where
  location : String
  storageType : StorageType
  timestampMSecs : Int
deriving DecidableEq

/-- QDateTime.toSecsSinceEpoch: milliseconds truncated to seconds. -/
def KisResourceStorage.timestampSecs (s : KisResourceStorage) : Int :=
  s.timestampMSecs / 1000

/-- The resource object as the cache layer reads it. The null pointer
check and the valid() check of the source collapse into one flag. The
thumbnail stands for the PNG encoding of the image blob, opaque here. -/
structure KoResource where
  valid : Bool
  filename : String
  name : String
  md5 : String
  thumbnailPng : String
deriving DecidableEq

/-- One element yielded by a storage resource iterator: the last
modified time (seconds since the epoch), the resource object (none
models a null pointer from iter.resource), and iter.type. -/
structure ResourceItem where
  lastModifiedSecs : Int
  resource : Option KoResource
  rtype : String
deriving DecidableEq

/-- One element yielded by a storage tag iterator. -/
structure TagItem where
  url : String
  name : String
  comment : String
  defaultResources : List String
deriving DecidableEq

/-- The expected schema version constant. -/
def databaseVersion : String := "0.0.1"

/-- The fixed origin type list used to fill origin_types. -/
def storageTypes : List String :=
  ["UNKNOWN", "FOLDER", "BUNDLE", "ADOBE_BRUSH_LIBRARY", "ADOBE_STYLE_LIBRARY"]

/-- The eight tables initDb requires. -/
def requiredTables : List String :=
  ["version_information", "origin_types", "resource_types", "storages",
   "tags", "resources", "versioned_resources", "resource_tags"]

/-- Modelled from the spec: the creator application version string
supplied by the host (KritaVersionWrapper.versionString), opaque here. -/
def kritaVersionString : String := "krita-version"

/-- SQL equality on two possibly-NULL values: NULL compares unequal to
everything, including NULL (three-valued logic collapses to false in a
WHERE clause). -/
def optEqSql (a b : Option Int) : Bool :=
  match a, b with
  | some x, some y => x == y
  | _, _ => false

/-- Resolve a resource type name against the resource_types lookup
table, as the subqueries SELECT id FROM resource_types WHERE name = x do. -/
def lookupTypeId (st : DbState) (resourceType : String) : Option Int :=
  match st.resource_types.find? (fun p => p.2 == resourceType) with
  | some p => some p.1
  | none => none

/-- Resolve a storage location against the storages table, as the
subqueries SELECT id FROM storages WHERE location = x do. -/
def lookupStorageId (st : DbState) (location : String) : Option Int :=
  match st.storages.find? (fun s => s.location == location) with
  | some s => some s.id
  | none => none

/-- Modelled from the spec: the query text of select_resource_id.sql is
not in the excerpt; per the spec it is an exact lookup of a resources
row by (filename, resource type), the type resolved against the
resource_types lookup table, returning -1 when no row matches. -/
def resourceIdForResource (st : DbState) (resourceFileName : String)
    (resourceType : String) : Int :=
  match st.resources.find? (fun r =>
      r.filename == resourceFileName
        && optEqSql r.resource_type_id (lookupTypeId st resourceType)) with
  | some r => r.id
  | none => -1

/-- The versioned_resources rows of one resource, in insertion order. -/
def versionRowsFor (st : DbState) (resourceId : Int) : List VersionedResourceRow :=
  st.versioned_resources.filter fun v => v.resource_id == resourceId

/-- SQL MAX(version) over a set of rows: NULL values are ignored and an
empty set gives NULL. -/
def maxVersionInRows (rows : List VersionedResourceRow) : Option Int :=
  rows.foldl (fun acc v =>
    match v.version with
    | none => acc
    | some b =>
      match acc with
      | none => some b
      | some a => some (max a b)) none

/-- The first row satisfying version = (SELECT MAX(version) ...) for a
resource, as the query of resourceNeedsUpdating selects it (q.first). -/
def maxVersionRow (st : DbState) (resourceId : Int) : Option VersionedResourceRow :=
  ((versionRowsFor st resourceId).filter fun v =>
      optEqSql v.version (maxVersionInRows (versionRowsFor st resourceId))).head?

/-- KisResourceCacheDb.resourceNeedsUpdating: compares the candidate
timestamp (seconds since the epoch) with the timestamp of the row
holding the maximum version; when the query yields no row (no versions,
or only NULL versions) it warns about an inconsistent database and
returns false. -/
def resourceNeedsUpdating (st : DbState) (resourceId : Int)
    (timestampSecs : Int) : Bool :=
  match maxVersionRow st resourceId with
  | none => false
  | some row => decide (timestampSecs > row.timestamp)

/-- KisResourceCacheDb.addResourceVersion: inserts a versioned_resources
row with version = MAX(version) + 1 (NULL when the resource has no rows
yet) and storage_id resolved by location. The second statement of the
source, the UPDATE of the resources row, has malformed text (a stray
closing parenthesis after the thumbnail assignment), so its prepare
fails and the function returns false after the insert, leaving the
resources row untouched. -/
def addResourceVersion (st : DbState) (resourceId : Int) (timestampSecs : Int)
    (storage : KisResourceStorage) (resource : KoResource) : DbState × Bool :=
  let st1 := { st with versioned_resources := st.versioned_resources ++ [{
      resource_id := resourceId
      storage_id := lookupStorageId st storage.location
      version := (maxVersionInRows (versionRowsFor st resourceId)).map fun v => v + 1
      location := resource.filename
      timestamp := timestampSecs
      deleted := 0
      checksum := resource.md5 }] }
  (st1, false)

/-- KisResourceCacheDb.addResource. After the branch on whether the
resource already exists, control always falls through to the final
INSERT INTO versioned_resources with the hardcoded version 1, binding
the resourceId value obtained from the lookup at entry: -1 when the
resource was just inserted (the source never refreshes it), the old id
otherwise. The return value of addResourceVersion is overwritten by the
result of that final insert. -/
def addResource (st : DbState) (storage : KisResourceStorage)
    (timestampSecs : Int) (resource : KoResource) (resourceType : String) :
    DbState × Bool :=
  if !st.valid then (st, false)
  else if !resource.valid then (st, false)
  else
    let resourceId := resourceIdForResource st resource.filename resourceType
    let st1 :=
      if resourceId > -1 then
        if resourceNeedsUpdating st resourceId timestampSecs then
          (addResourceVersion st resourceId timestampSecs storage resource).1
        else st
      else
        { st with
          resources := st.resources ++ [{
            id := st.nextResourceId
            resource_type_id := lookupTypeId st resourceType
            name := resource.name
            filename := resource.filename
            tooltip := resource.name
            thumbnail := resource.thumbnailPng
            status := 1 }]
          nextResourceId := st.nextResourceId + 1 }
    ({ st1 with versioned_resources := st1.versioned_resources ++ [{
        resource_id := resourceId
        storage_id := lookupStorageId st1 storage.location
        version := some 1
        location := resource.filename
        timestamp := timestampSecs
        deleted := 0
        checksum := resource.md5 }] }, true)

/-- The loop body shared by addResources and the folder branch of
synchronizeStorage: feed every non-null iterated resource through
addResource with its last modified time and iterated type, discarding
per-item results. -/
def applyResourceItems (st : DbState) (storage : KisResourceStorage)
    (items : List ResourceItem) : DbState :=
  items.foldl (fun acc it =>
    match it.resource with
    | none => acc
    | some res => (addResource acc storage it.lastModifiedSecs res it.rtype).1) st

/-- KisResourceCacheDb.addResources: drives addResource over every
resource the storage yields for the type; item failures are only
logged, and the function returns true unconditionally. -/
def addResources (st : DbState) (storage : KisResourceStorage)
    (resourceType : String) (items : List ResourceItem) : DbState × Bool :=
  (applyResourceItems st storage items, true)

/-- The predicate of the tag lookup: a tags row matching a url and a
resolved resource type id. -/
def tagMatches (tid : Option Int) (url : String) (t : TagRow) : Bool :=
  t.url == url && optEqSql t.resource_type_id tid

/-- Modelled from the spec: the query text of select_tag.sql is not in
the excerpt; per the spec it is an existence lookup of a tags row by
(url, resourceType), the type resolved against resource_types. -/
def lookupTagRow (st : DbState) (url : String) (resourceType : String) :
    Option TagRow :=
  st.tags.find? (tagMatches (lookupTypeId st resourceType) url)

/-- KisResourceCacheDb.hasTag: whether the tag lookup yields a row. -/
def hasTag (st : DbState) (url : String) (resourceType : String) : Bool :=
  (lookupTagRow st url resourceType).isSome

/-- KisResourceCacheDb.addTag: a no-op success when hasTag already
holds; otherwise inserts a tags row with the type resolved by name and
active 1. Note the source returns true even when the insert fails. -/
def addTag (st : DbState) (resourceType : String) (url : String)
    (name : String) (comment : String) : DbState × Bool :=
  if hasTag st url resourceType then (st, true)
  else
    ({ st with
        tags := st.tags ++ [{
          id := st.nextTagId
          url := url
          name := name
          comment := comment
          resource_type_id := lookupTypeId st resourceType
          active := 1 }]
        nextTagId := st.nextTagId + 1 }, true)

/-- KisResourceCacheDb.tagResource: resolves the resource id from the
fully qualified location string and the tag row from (url, type); fails
without mutation when either resolution comes up empty, otherwise
inserts the association row. No validity flag check in the source. -/
def tagResource (st : DbState) (storage : KisResourceStorage)
    (resourceName : String) (tagUrl : String) (resourceType : String) :
    DbState × Bool :=
  let resourceId := resourceIdForResource st
      (storage.location ++ "/" ++ resourceType ++ "/" ++ resourceName) resourceType
  if resourceId < 0 then (st, false)
  else
    match lookupTagRow st tagUrl resourceType with
    | none => (st, false)
    | some tag =>
      ({ st with resource_tags := st.resource_tags ++ [{
          resource_id := resourceId
          tag_id := tag.id }] }, true)

/-- The inner loop of addTags over one tag item: tag every declared
default resource, discarding per-item results. -/
def applyDefaultResources (st : DbState) (storage : KisResourceStorage)
    (tagUrl : String) (resourceType : String) (names : List String) : DbState :=
  names.foldl (fun acc nm => (tagResource acc storage nm tagUrl resourceType).1) st

/-- KisResourceCacheDb.addTags: adds every iterated tag and tags its
declared default resources; item failures are only logged, and the
function returns true unconditionally. -/
def addTags (st : DbState) (storage : KisResourceStorage)
    (resourceType : String) (items : List TagItem) : DbState × Bool :=
  (items.foldl (fun acc it =>
      applyDefaultResources ((addTag acc resourceType it.url it.name it.comment).1)
        storage it.url resourceType it.defaultResources) st, true)

/-- KisResourceCacheDb.addStorage: refuses when the validity flag is
down; a no-op success when a storages row with the location exists;
otherwise inserts a row with the numeric storage type, the timestamp in
milliseconds since the epoch, the preinstalled flag and active 1. -/
def addStorage (st : DbState) (storage : KisResourceStorage)
    (preinstalled : Bool) : DbState × Bool :=
  if !st.valid then (st, false)
  else if (st.storages.find? (fun s => s.location == storage.location)).isSome then
    (st, true)
  else
    ({ st with
        storages := st.storages ++ [{
          id := st.nextStorageId
          origin_type_id := storage.storageType.toInt
          location := storage.location
          timestamp := storage.timestampMSecs
          pre_installed := if preinstalled then 1 else 0
          active := 1 }]
        nextStorageId := st.nextStorageId + 1 }, false) |>
    fun r => (r.1, true)

/-- KisResourceCacheDb.deleteStorage. All three DELETE statements of
the source are malformed: in each one the table name and the WHERE
keyword come from adjacent string literals concatenated without a
separating space, giving DELETE FROM resourcesWHERE ...,
DELETE FROM versioned_resourcesWHERE ... and
DELETE FROM storagesWHERE ... (the first also lacks a FROM in its
subquery, the last carries a stray closing parenthesis). Each prepare
therefore fails and the function returns false at the first block,
having removed nothing. No validity flag check in the source. -/
def deleteStorage (st : DbState) (storage : KisResourceStorage) :
    DbState × Bool :=
  (st, false)

/-- KisResourceCacheDb.synchronizeStorage. For non-folder storages the
persisted timestamp and preinstalled flag are selected by location;
when no row exists the storage is added (not preinstalled), and the
source then continues with the invalid query values, which read as 0
and false. The newness comparison puts the current time in seconds
against the stored value, which addStorage persisted in milliseconds.
For folder storages every resource of every registered type is fed
through addResource. Returns true at the end of either branch. -/
def synchronizeStorage (st : DbState) (storage : KisResourceStorage)
    (folderItems : List ResourceItem) : DbState × Bool :=
  if !st.valid then (st, false)
  else if storage.storageType != StorageType.Folder then
    match st.storages.find? (fun s => s.location == storage.location) with
    | none =>
      let st1 := (addStorage st storage false).1
      if storage.timestampSecs > 0 then
        let st2 := (deleteStorage st1 storage).1
        ((addStorage st2 storage false).1, true)
      else (st1, true)
    | some row =>
      if storage.timestampSecs > row.timestamp then
        let st2 := (deleteStorage st storage).1
        ((addStorage st2 storage (row.pre_installed != 0)).1, true)
      else (st, true)
  else
    (applyResourceItems st storage folderItems, true)

/-- The result of initDb: the state, whether lastError is clear, and
whether the schema-outdated warning fired. -/
structure InitResult where
  state : DbState
  ok : Bool
  flaggedOutdated : Bool
deriving DecidableEq

/-- QSqlQuery.size under the QSQLITE driver named by dbDriver: the
driver does not support the QuerySize feature, so size is -1 for every
query, whatever the number of result rows. -/
def sqliteQuerySize (rows : List VersionInfoRow) : Int := -1

/-- The schemaIsOutDated flag computed inside initDb: guarded by the
version_information table existing and by the query size being
positive; because the size is -1 under this driver, the stored schema
version string is never actually compared and the flag stays false.
Modelled from the spec: get_version_information.sql selects
(schema_version, krita_version, creation_date) from the single row. -/
def schemaOutdatedFlag (st : DbState) : Bool :=
  if st.tables.contains "version_information" then
    if sqliteQuerySize st.version_information > 0 then
      match st.version_information.head? with
      | some row => row.schema_version != databaseVersion
      | none => false
    else false
  else false

/-- Whether every required table is present. -/
def allTablesPresent (st : DbState) : Bool :=
  requiredTables.all fun t => st.tables.contains t

/-- The state after QSqlDatabase.addDatabase: a connection name exists. -/
def openedState (st : DbState) : DbState := { st with connectionAdded := true }

/-- Modelled from the spec: the create_*.sql files are not in the
excerpt; per the spec they create each required table, the storages
index, and the lookup fills append origin_types from the fixed list,
resource_types from the registered names, and one version_information
row. The clearing of pre-existing lookup rows uses the malformed
DELETE * FROM statements, whose failure the source only logs, so
pre-existing rows stay and the fills append after them. -/
def createSchema (st : DbState) (registryTypes : List String) : DbState :=
  { st with
    tables := st.tables ++ requiredTables.filter (fun t => !(st.tables.contains t))
    origin_types := st.origin_types ++
      (storageTypes.mapIdx fun i t => (((st.origin_types.length + i + 1 : Nat) : Int), t))
    resource_types := st.resource_types ++
      (registryTypes.mapIdx fun i t => (((st.resource_types.length + i + 1 : Nat) : Int), t))
    version_information := st.version_information ++ [{
      schema_version := databaseVersion
      krita_version := kritaVersionString
      creation_date := 0 }] }

/-- initDb: an immediate clean return when a connection name already
exists; otherwise the connection is added and opened (openFails models
an open failure, which returns the error after the name was added);
then the early clean return when all tables are present and the schema
was not flagged outdated, else the schema creation path. -/
def initDb (st : DbState) (registryTypes : List String) : InitResult :=
  if st.connectionAdded then
    { state := st, ok := true, flaggedOutdated := false }
  else if st.openFails then
    { state := openedState st, ok := false, flaggedOutdated := false }
  else if allTablesPresent (openedState st) && !(schemaOutdatedFlag (openedState st)) then
    { state := openedState st, ok := true,
      flaggedOutdated := schemaOutdatedFlag (openedState st) }
  else
    { state := createSchema (openedState st) registryTypes, ok := true,
      flaggedOutdated := schemaOutdatedFlag (openedState st) }

/-- KisResourceCacheDb.initialize, renamed: runs initDb, stores whether
the error was clear into the process-wide valid flag, and returns it. -/
def initResourceCacheDb (st : DbState) (registryTypes : List String) :
    DbState × Bool :=
  ({ (initDb st registryTypes).state with valid := (initDb st registryTypes).ok },
   (initDb st registryTypes).ok)

/-- A connected, valid, freshly created database with empty data tables. -/
def emptyDb : DbState :=
  { connectionAdded := true
    openFails := false
    valid := true
    tables := requiredTables
    version_information := [{
      schema_version := databaseVersion
      krita_version := kritaVersionString
      creation_date := 0 }]
    origin_types := []
    resource_types := []
    storages := []
    resources := []
    versioned_resources := []
    tags := []
    resource_tags := []
    nextResourceId := 1
    nextStorageId := 1
    nextTagId := 1 }

/-- A bundle storage registered at timestamp 100 seconds. -/
def brushStorage : KisResourceStorage :=
  { location := "/bundles/b.bundle", storageType := StorageType.Bundle,
    timestampMSecs := 100000 }

/-- A valid resource with checksum c1. -/
def brushRes : KoResource :=
  { valid := true, filename := "brush1.kpp", name := "brush1", md5 := "c1",
    thumbnailPng := "png" }

/-- The database after the spec-intended effect of a first addResource
of brushRes: one resources row (id 1) and one versioned_resources row
(version 1, timestamp 100 seconds, checksum c1). -/
def c1State : DbState :=
  { emptyDb with
    resource_types := [(1, "paintoppresets")]
    storages := [{ id := 1, origin_type_id := 3, location := "/bundles/b.bundle",
                   timestamp := 100000, pre_installed := 1, active := 1 }]
    resources := [{ id := 1, resource_type_id := some 1, name := "brush1",
                    filename := "brush1.kpp", tooltip := "brush1",
                    thumbnail := "png", status := 1 }]
    versioned_resources := [{ resource_id := 1, storage_id := some 1,
                              version := some 1, location := "brush1.kpp",
                              timestamp := 100, deleted := 0, checksum := "c1" }]
    nextResourceId := 2
    nextStorageId := 2 }

/-- Claim C1, settled against the code: the claim states that a second
addResource call with a timestamp that is not strictly newer performs
no mutation, returns success, and leaves exactly one
versioned_resources row for the resource. At this concrete input
(resource brush1.kpp already indexed with one version row at timestamp
100, addResource called again with timestamp 100) the call does return
success, but it falls through to the unconditional INSERT with the
hardcoded version 1 and appends a second row for resource 1, mutating
the state. -/
theorem addResource_second_call_duplicates_version_row :
    (addResource c1State brushStorage 100 brushRes "paintoppresets").2 = true
    ∧ ((addResource c1State brushStorage 100 brushRes
          "paintoppresets").1.versioned_resources.filter fun v =>
            v.resource_id == 1).length = 2
    ∧ (addResource c1State brushStorage 100 brushRes "paintoppresets").1
        ≠ c1State := by decide

/-- A valid resource for the C2 sequence, parameterised by checksum. -/
def c2Res (cs : String) : KoResource :=
  { valid := true, filename := "b2.kpp", name := "b2", md5 := cs,
    thumbnailPng := "png" }

/-- The starting state for the C2 sequence: a registered type and a
registered storage, no resources yet. -/
def c2State0 : DbState :=
  { emptyDb with
    resource_types := [(1, "paintoppresets")]
    storages := [{ id := 1, origin_type_id := 3, location := "/bundles/b.bundle",
                   timestamp := 100000, pre_installed := 1, active := 1 }]
    nextStorageId := 2 }

/-- The state after the C2 sequence: three addResource calls for the
same resource with strictly increasing timestamps 1, 2, 3 and
checksums csA, csB, csC. -/
def c2State3 : DbState :=
  (addResource
    ((addResource
      ((addResource c2State0 brushStorage 1 (c2Res "csA") "paintoppresets").1)
      brushStorage 2 (c2Res "csB") "paintoppresets").1)
    brushStorage 3 (c2Res "csC") "paintoppresets").1

/-- The version column values of one resource, in row order. -/
def versionListFor (st : DbState) (resourceId : Int) : List (Option Int) :=
  (versionRowsFor st resourceId).map fun v => v.version

/-- The property the claim asserts of a version list: contiguous
ascending integers starting at 1. -/
def contiguousFromOne (l : List (Option Int)) : Bool :=
  l == (List.range l.length).map fun i => some ((i : Int) + 1)

/-- Claim C2, settled against the code: after the three-call sequence
of c2State3 the version rows of resource 1 carry versions 1, 2, 1 (the
first call files its version row under resource_id -1 because
addResource never refreshes the id after inserting the resources row,
and every call appends a fall-through row with hardcoded version 1), so
the versions are not contiguous ascending integers starting at 1. -/
theorem addResource_sequence_breaks_version_contiguity :
    versionListFor c2State3 1 = [some 1, some 2, some 1]
    ∧ contiguousFromOne (versionListFor c2State3 1) = false
    ∧ (versionListFor c2State3 (-1)).length = 1 := by decide

/-- A bundle storage whose current timestamp is 2000 seconds. -/
def c3Storage : KisResourceStorage :=
  { location := "/bundles/c3.bundle", storageType := StorageType.Bundle,
    timestampMSecs := 2000000 }

/-- A state in which c3Storage was persisted by addStorage at timestamp
1000 seconds, stored as 1000000 milliseconds, with preinstalled 1 and
one resource with one version row. -/
def c3State : DbState :=
  { emptyDb with
    resource_types := [(1, "paintoppresets")]
    storages := [{ id := 1, origin_type_id := 3, location := "/bundles/c3.bundle",
                   timestamp := 1000000, pre_installed := 1, active := 1 }]
    resources := [{ id := 1, resource_type_id := some 1, name := "r3",
                    filename := "r3.kpp", tooltip := "r3",
                    thumbnail := "png", status := 1 }]
    versioned_resources := [{ resource_id := 1, storage_id := some 1,
                              version := some 1, location := "r3.kpp",
                              timestamp := 900, deleted := 0, checksum := "c3" }]
    nextResourceId := 2
    nextStorageId := 2 }

/-- Claim C3, settled against the code: the persisted timestamp of the
storage is 1000 seconds (stored by addStorage as 1000000 milliseconds)
and the current timestamp is 2000 seconds, strictly newer, yet
synchronizeStorage changes nothing and returns true: the comparison
puts the current seconds against the stored milliseconds
(2000 > 1000000 is false), so the resource and version lineage is never
deleted and the storage is never reinserted. -/
theorem synchronizeStorage_misses_newer_container_storage :
    c3Storage.timestampSecs = 2000
    ∧ (c3State.storages.map fun s => s.timestamp) = [1000000]
    ∧ synchronizeStorage c3State c3Storage [] = (c3State, true) := by decide

/-- The storage of the C4 scenario. -/
def c4Storage : KisResourceStorage :=
  { location := "/bundles/c4.bundle", storageType := StorageType.Bundle,
    timestampMSecs := 500000 }

/-- A state holding c4Storage with N = 1 resource row and M = 1
versioned_resources row. -/
def c4State : DbState :=
  { emptyDb with
    resource_types := [(1, "paintoppresets")]
    storages := [{ id := 1, origin_type_id := 3, location := "/bundles/c4.bundle",
                   timestamp := 500000, pre_installed := 0, active := 1 }]
    resources := [{ id := 1, resource_type_id := some 1, name := "r4",
                    filename := "r4.kpp", tooltip := "r4",
                    thumbnail := "png", status := 1 }]
    versioned_resources := [{ resource_id := 1, storage_id := some 1,
                              version := some 1, location := "r4.kpp",
                              timestamp := 400, deleted := 0, checksum := "c4" }]
    nextResourceId := 2
    nextStorageId := 2 }

/-- Claim C4, settled against the code: on a storage with N = 1
resource row and M = 1 version row the claim requires deleteStorage to
remove exactly N + M + 1 = 3 rows; the call removes nothing and
returns false, because every one of its three DELETE statements is
malformed (table name and WHERE keyword concatenated without a space)
and fails at prepare. -/
theorem deleteStorage_removes_nothing :
    deleteStorage c4State c4Storage = (c4State, false)
    ∧ c4State.resources.length = 1
    ∧ c4State.versioned_resources.length = 1
    ∧ (c4State.storages.map fun s => s.location) = ["/bundles/c4.bundle"] := by
  decide

/-- An invalid-flag state with a registered resource type and no tags. -/
def c5State : DbState :=
  { emptyDb with valid := false, resource_types := [(1, "paintoppresets")] }

/-- Claim C5, the part the code violates: with the process-wide valid
flag false, addTag does not check the flag; it inserts a tags row and
returns success, so not every cache operation refuses to run. -/
theorem addTag_ignores_invalid_flag :
    c5State.valid = false
    ∧ c5State.tags.length = 0
    ∧ (addTag c5State "paintoppresets" "tagu" "tagn" "tagc").2 = true
    ∧ (addTag c5State "paintoppresets" "tagu" "tagn" "tagc").1.tags.length = 1 := by
  decide

/-- Claim C5 as amended: after a failed initialization the valid flag
is false, and the three operations that do check the flag, addResource,
addStorage and synchronizeStorage, refuse to run and return failure
without mutating; addTag, tagResource and deleteStorage carry no such
check. -/
theorem invalid_flag_blocks_checked_operations
    (st : DbState) (regs : List String) (storage : KisResourceStorage)
    (ts : Int) (res : KoResource) (rt : String) (pre : Bool)
    (items : List ResourceItem) (hv : st.valid = false) :
    ((initResourceCacheDb st regs).2 = false →
        (initResourceCacheDb st regs).1.valid = false)
    ∧ addResource st storage ts res rt = (st, false)
    ∧ addStorage st storage pre = (st, false)
    ∧ synchronizeStorage st storage items = (st, false) := by
  refine ⟨fun h => h, ?_, ?_, ?_⟩ <;>
    simp [addResource, addStorage, synchronizeStorage, hv]

/-- A storage and resource for the C5 witness. -/
def w5Storage : KisResourceStorage :=
  { location := "/w5", storageType := StorageType.Bundle, timestampMSecs := 0 }

/-- A valid resource for the C5 witness. -/
def w5Res : KoResource :=
  { valid := true, filename := "w5f", name := "w5", md5 := "m",
    thumbnailPng := "p" }

/-- Witness for the amended C5 theorem at a concrete invalid state. -/
theorem invalid_flag_blocks_checked_operations_witness :
    addResource c5State w5Storage 0 w5Res "paintoppresets" = (c5State, false) :=
  (invalid_flag_blocks_checked_operations c5State [] w5Storage 0 w5Res
    "paintoppresets" false [] rfl).2.1

/-- A database whose stored schema version string was altered to 9.9.9
(the expected constant is 0.0.1), all eight tables present, connection
not yet made. -/
def c6State : DbState :=
  { emptyDb with
    connectionAdded := false
    valid := false
    version_information := [{
      schema_version := "9.9.9"
      krita_version := kritaVersionString
      creation_date := 0 }] }

/-- Claim C6, settled against the code: the stored schema version
differs from the expected constant, yet initialization neither flags
the schema outdated nor rejects the database; it reports success and
leaves the data untouched. The comparison inside initDb is guarded by
the query size being positive, and under the QSQLITE driver the size of
every query is -1, so the stored string is never compared. -/
theorem initDb_accepts_mismatched_schema_version :
    ("9.9.9" : String) ≠ databaseVersion
    ∧ (initDb c6State []).flaggedOutdated = false
    ∧ initResourceCacheDb c6State []
        = ({ c6State with connectionAdded := true, valid := true }, true) := by
  decide

/-- Every path of initDb leaves a connection name added. -/
theorem initDb_state_connectionAdded (st : DbState) (regs : List String) :
    (initDb st regs).state.connectionAdded = true := by
  unfold initDb
  split
  · next h => simpa using h
  · split
    · simp [openedState]
    · split <;> simp [openedState, createSchema]

/-- initDb is an immediate clean no-op when a connection name exists. -/
theorem initDb_connected (s : DbState) (regs : List String)
    (h : s.connectionAdded = true) :
    initDb s regs = { state := s, ok := true, flaggedOutdated := false } := by
  unfold initDb
  simp [h]

/-- Claim C7: after a successful first initialization, a second
initialization call performs no mutation at all and reports success,
because initDb returns immediately when a connection name exists. -/
theorem initResourceCacheDb_idempotent (st : DbState) (regs : List String)
    (h : (initResourceCacheDb st regs).2 = true) :
    initResourceCacheDb (initResourceCacheDb st regs).1 regs
      = ((initResourceCacheDb st regs).1, true) := by
  have hok : (initDb st regs).ok = true := h
  have hconn2 :
      ({ (initDb st regs).state with valid := true } : DbState).connectionAdded
        = true :=
    initDb_state_connectionAdded st regs
  unfold initResourceCacheDb
  rw [hok, initDb_connected _ regs hconn2]

/-- A fresh location for the C7 witness: no connection yet, tables
already on disk. -/
def w7State : DbState :=
  { emptyDb with connectionAdded := false, valid := false }

/-- Witness for the C7 theorem at a concrete state whose first
initialization succeeds. -/
theorem initResourceCacheDb_idempotent_witness :
    initResourceCacheDb (initResourceCacheDb w7State []).1 []
      = ((initResourceCacheDb w7State []).1, true) :=
  initResourceCacheDb_idempotent w7State [] (by decide)

/-- The number of tags rows matching (url, resourceType), the type
resolved as the lookup resolves it. -/
def countTagRows (st : DbState) (url : String) (resourceType : String) : Nat :=
  (st.tags.filter (tagMatches (lookupTypeId st resourceType) url)).length

/-- Claim C8: addTag is idempotent. For a registered resource type and
a state not yet holding the tag, the first call inserts one tags row;
the second call with identical arguments returns success without any
mutation, and exactly one matching tags row remains. -/
theorem addTag_idempotent (st : DbState)
    (resourceType url tagName tagComment : String) (tid : Int)
    (hreg : lookupTypeId st resourceType = some tid)
    (hfresh : countTagRows st url resourceType = 0) :
    addTag (addTag st resourceType url tagName tagComment).1 resourceType url
        tagName tagComment
      = ((addTag st resourceType url tagName tagComment).1, true)
    ∧ countTagRows (addTag st resourceType url tagName tagComment).1 url
        resourceType = 1 := by
  have hnil : st.tags.filter (tagMatches (lookupTypeId st resourceType) url) = [] :=
    List.length_eq_zero.mp hfresh
  have hall : ∀ t ∈ st.tags, ¬ tagMatches (lookupTypeId st resourceType) url t :=
    List.filter_eq_nil_iff.mp hnil
  have hfind : st.tags.find? (tagMatches (lookupTypeId st resourceType) url) = none :=
    List.find?_eq_none.mpr hall
  have hhas : hasTag st url resourceType = false := by
    simp [hasTag, lookupTagRow, hfind]
  have h1 : addTag st resourceType url tagName tagComment
      = ({ st with
            tags := st.tags ++ [{
              id := st.nextTagId
              url := url
              name := tagName
              comment := tagComment
              resource_type_id := lookupTypeId st resourceType
              active := 1 }]
            nextTagId := st.nextTagId + 1 }, true) := by
    unfold addTag
    rw [hhas]
    simp
  rw [h1]
  have hmatch : tagMatches (some tid) url
      ({ id := st.nextTagId, url := url, name := tagName, comment := tagComment,
         resource_type_id := lookupTypeId st resourceType, active := 1 } : TagRow)
        = true := by
    simp [tagMatches, hreg, optEqSql]
  have hnil2 : st.tags.filter (tagMatches (some tid) url) = [] := by
    rw [← hreg]; exact hnil
  constructor
  · unfold addTag
    have hhas2 : hasTag
        { st with
          tags := st.tags ++ [{
            id := st.nextTagId
            url := url
            name := tagName
            comment := tagComment
            resource_type_id := lookupTypeId st resourceType
            active := 1 }]
          nextTagId := st.nextTagId + 1 } url resourceType = true := by
      simp only [hasTag, lookupTagRow]
      rw [show lookupTypeId
          { st with
            tags := st.tags ++ [{
              id := st.nextTagId
              url := url
              name := tagName
              comment := tagComment
              resource_type_id := lookupTypeId st resourceType
              active := 1 }]
            nextTagId := st.nextTagId + 1 } resourceType = some tid from hreg]
      rw [List.find?_isSome]
      refine ⟨_, List.mem_append_right _ (List.mem_singleton_self _), hmatch⟩
    rw [hhas2]
    simp
  · simp only [countTagRows]
    rw [show lookupTypeId
        { st with
          tags := st.tags ++ [{
            id := st.nextTagId
            url := url
            name := tagName
            comment := tagComment
            resource_type_id := lookupTypeId st resourceType
            active := 1 }]
          nextTagId := st.nextTagId + 1 } resourceType = some tid from hreg]
    simp only [List.filter_append, hnil2, hmatch, List.filter_cons,
      List.filter_nil, List.nil_append]
    simp [hmatch]

/-- A state with one registered resource type and no tags, for the C8
witness. -/
def w8State : DbState :=
  { emptyDb with resource_types := [(1, "paintoppresets")] }

/-- Witness for the C8 theorem at a concrete fresh tag. -/
theorem addTag_idempotent_witness :
    addTag (addTag w8State "paintoppresets" "star" "Star" "five").1
        "paintoppresets" "star" "Star" "five"
      = ((addTag w8State "paintoppresets" "star" "Star" "five").1, true) :=
  (addTag_idempotent w8State "paintoppresets" "star" "Star" "five" 1
    (by decide) (by decide)).1

/-- Claim C9: resourceNeedsUpdating returns false when the resource has
no version rows at all, and when the query for the maximum-version row
yields a row it returns true exactly when the candidate timestamp is
strictly greater than the stored timestamp of that row. -/
theorem resourceNeedsUpdating_spec (st : DbState) (resourceId ts : Int) :
    (versionRowsFor st resourceId = [] →
        resourceNeedsUpdating st resourceId ts = false)
    ∧ ∀ row, maxVersionRow st resourceId = some row →
        (resourceNeedsUpdating st resourceId ts = true ↔ row.timestamp < ts) := by
  constructor
  · intro h
    simp [resourceNeedsUpdating, maxVersionRow, h]
  · intro row hrow
    simp [resourceNeedsUpdating, hrow]

/-- A state with one version row at timestamp 100 for resource 1. -/
def w9State : DbState :=
  { emptyDb with
    versioned_resources := [{ resource_id := 1, storage_id := some 1,
                              version := some 1, location := "f",
                              timestamp := 100, deleted := 0, checksum := "a" }] }

/-- The maximum-version row of resource 1 in w9State. -/
def w9Row : VersionedResourceRow :=
  { resource_id := 1, storage_id := some 1, version := some 1, location := "f",
    timestamp := 100, deleted := 0, checksum := "a" }

/-- Witness for the C9 theorem: a candidate timestamp of 200 seconds is
strictly newer than the stored 100, so updating is needed. -/
theorem resourceNeedsUpdating_spec_witness :
    resourceNeedsUpdating w9State 1 200 = true :=
  ((resourceNeedsUpdating_spec w9State 1 200).2 w9Row (by decide)).mpr (by decide)

/-- Claim C10: addResources and addTags return true whatever happens to
their per-item calls, and so does the folder branch of
synchronizeStorage (reached when the validity flag is up and the
storage is folder-typed), so a caller cannot see even a fully failed
batch in the return value. -/
theorem batch_operations_always_report_success
    (st : DbState) (storage : KisResourceStorage) (resourceType : String)
    (items : List ResourceItem) (tagItems : List TagItem)
    (folderItems : List ResourceItem) :
    (addResources st storage resourceType items).2 = true
    ∧ (addTags st storage resourceType tagItems).2 = true
    ∧ (st.valid = true → storage.storageType = StorageType.Folder →
        (synchronizeStorage st storage folderItems).2 = true) := by
  refine ⟨rfl, rfl, fun hv hf => ?_⟩
  simp [synchronizeStorage, hv, hf,
    show (StorageType.Folder != StorageType.Folder) = false from rfl]

/-- A folder storage for the C10 witness. -/
def w10Storage : KisResourceStorage :=
  { location := "/home/user/resources", storageType := StorageType.Folder,
    timestampMSecs := 0 }

/-- Witness for the C10 theorem on the folder branch at a concrete
valid state. -/
theorem batch_operations_always_report_success_witness :
    (synchronizeStorage emptyDb w10Storage []).2 = true :=
  (batch_operations_always_report_success emptyDb w10Storage
    "paintoppresets" [] [] []).2.2 rfl rfl
